import Mathlib

/-!
Shallow embedding of cloud-function-promote-cleanup/main.py.

The remote compute API is modelled as a pure collaborator record
(`World`): each mutating call (stop, delete, image insert) carries its
paired operation wait folded into one outcome, since the source always
issues the call and immediately waits on the returned operation.  The
operation-polling loops themselves (wait_for_zone_operation and
wait_for_global_operation, lines 28-54) are embedded separately with an
explicit poll stream and a fuel bound, because they are unbounded in the
source.  Every remote call and every time.sleep is recorded in an event
trace so that ordering and call-count properties can be stated.
Python exceptions are modelled by their message string, because the
source only ever inspects str(e) for substring "not found" variants.
-/

set_option linter.unusedVariables false

deriving instance DecidableEq for Except

/-- ASCII lowercasing of one character (the messages the source
compares are ASCII, so this captures Python str.lower on them). -/
def charLower (c : Char) : Char :=
  if 65 ≤ c.toNat ∧ c.toNat ≤ 90 then Char.ofNat (c.toNat + 32) else c

/-- Python str.lower restricted to ASCII. -/
def strLower (s : String) : String := String.mk (s.data.map charLower)

/-- Lifecycle states of a compute instance, as compared in the source
(TERMINATED, STOPPED, RUNNING, STOPPING) plus transitional states. -/
inductive InstStatus
  | provisioning
  | staging
  | running
  | stopping
  | stopped
  | suspending
  | suspended
  | terminated
  | repairing
deriving DecidableEq, Repr

/-- A disk attached to an instance: the boot flag and the full source path. -/
structure Disk where
  boot : Bool
  source : String
deriving DecidableEq, Repr

/-- Observed projection of a compute instance: status and disk list. -/
structure Instance where
  status : InstStatus
  disks : List Disk
deriving DecidableEq, Repr

/-- The image resource built at main.py lines 102-111. -/
structure Image where
  name : String
  description : String
  source_disk : String
  family : String
  labels : List (String × String)
deriving DecidableEq, Repr

/-- Trace events: each remote call issued and each time.sleep performed. -/
inductive Ev
  | getInstance (name : String)
  | stopInstance (name : String)
  | deleteInstance (name : String)
  | insertImage (img : Image)
  | sleep (secs : Nat)
deriving DecidableEq, Repr

/-- The remote-compute collaborator.  stop, delete and insertImage fold
the issued call together with the wait on its returned operation: an
error is any exception raised by the call or by the wait. -/
structure World where
  getInstance : String → Except String Instance
  stop : String → Except String Unit
  delete : String → Except String Unit
  insertImage : Image → Except String Unit

/-- needle appears as a contiguous sublist of the first argument
(Python substring containment over the char list). -/
def listContainsSub (needle : List Char) : List Char → Bool
  | [] => needle.isPrefixOf []
  | c :: t => needle.isPrefixOf (c :: t) || listContainsSub needle t

/-- Python `needle in hay` on strings. -/
def containsSub (hay needle : String) : Bool :=
  listContainsSub needle.data hay.data

/-- not-found test of check_vm_exists (line 145) and wait_for_vm_stable
(line 174): lowercased message contains "not found", or the raw message
contains "NOT_FOUND". -/
def nfCheck (e : String) : Bool :=
  containsSub (strLower e) "not found" || containsSub e "NOT_FOUND"

/-- not-found test of the stop phase (line 215), the delete handler
(line 240) and the force handler (line 261): lowercased message contains
"not found". -/
def nfLower (e : String) : Bool :=
  containsSub (strLower e) "not found"

/-- not-found test of the per-attempt handler (line 271): lowercased
message contains "not found" or "not_found". -/
def nfOuter (e : String) : Bool :=
  containsSub (strLower e) "not found" || containsSub (strLower e) "not_found"

/-- check_vm_exists (lines 135-147): get the instance; a not-found
failure means false, any other failure propagates. -/
def check_vm_exists (instance_name project_id : String) (w : World) :
    Except String Bool × List Ev :=
  match w.getInstance instance_name with
  | .ok _ => (.ok true, [.getInstance instance_name])
  | .error e =>
    if nfCheck e then (.ok false, [.getInstance instance_name])
    else (.error e, [.getInstance instance_name])

/-- Stabilization loop body of wait_for_vm_stable (lines 155-177),
counted in 5-second steps: poll the instance; stable statuses return
true, transitional ones sleep 5 and retry, not-found returns false,
other errors propagate. -/
def wait_for_vm_stable_go (w : World) (instance_name : String) :
    Nat → Except String Bool × List Ev
  | 0 => (.ok false, [])
  | k + 1 =>
    match w.getInstance instance_name with
    | .ok inst =>
      if inst.status = .terminated ∨ inst.status = .stopped ∨ inst.status = .running then
        (.ok true, [.getInstance instance_name])
      else
        let r := wait_for_vm_stable_go w instance_name k
        (r.1, .getInstance instance_name :: .sleep 5 :: r.2)
    | .error e =>
      if nfCheck e then (.ok false, [.getInstance instance_name])
      else (.error e, [.getInstance instance_name])

/-- wait_for_vm_stable (lines 150-180): the while loop runs while the
elapsed time is below max_wait_seconds and each transitional iteration
sleeps 5 seconds, so it performs at most ceil(max_wait_seconds / 5)
polls and then gives up with false. -/
def wait_for_vm_stable (instance_name project_id : String) (w : World)
    (max_wait_seconds : Nat) : Except String Bool × List Ev :=
  wait_for_vm_stable_go w instance_name ((max_wait_seconds + 4) / 5)

/-- Outcome of one delete_vm attempt body: the function returned, or an
exception reached the per-attempt handler at line 269. -/
inductive ARes
  | done
  | raised (e : String)
deriving DecidableEq, Repr

/-- Pre-delete stop phase of delete_vm (lines 199-216): get the
instance, stop it when RUNNING; every exception is swallowed, so only
the issued calls matter. -/
def delete_vm_stop_phase (w : World) (instance_name : String) : List Ev :=
  match w.getInstance instance_name with
  | .ok inst =>
    if inst.status = .running then
      [.getInstance instance_name, .stopInstance instance_name]
    else
      [.getInstance instance_name]
  | .error _ => [.getInstance instance_name]

/-- Force-stop sub-block of the fallback path (lines 244-252): get the
instance, force-stop it when RUNNING or STOPPING, sleep 5 after a
successful stop; the bare except swallows everything. -/
def delete_vm_force_stop_events (w : World) (instance_name : String) : List Ev :=
  match w.getInstance instance_name with
  | .ok inst =>
    if inst.status = .running ∨ inst.status = .stopping then
      match w.stop instance_name with
      | .ok _ => [.getInstance instance_name, .stopInstance instance_name, .sleep 5]
      | .error _ => [.getInstance instance_name, .stopInstance instance_name]
    else [.getInstance instance_name]
  | .error _ => [.getInstance instance_name]

/-- Fallback path after a non-not-found delete failure (lines 241-264):
force-stop, delete again; success or a not-found failure returns, any
other failure is re-raised to the per-attempt handler. -/
def delete_vm_force_path (w : World) (instance_name : String) : ARes × List Ev :=
  let evs := delete_vm_force_stop_events w instance_name
  match w.delete instance_name with
  | .ok _ => (.done, evs ++ [.deleteInstance instance_name, .sleep 10])
  | .error e =>
    if nfLower e then (.done, evs ++ [.deleteInstance instance_name])
    else (.raised e, evs ++ [.deleteInstance instance_name])

/-- Delete section of one attempt (lines 218-267): issue delete; on
success sleep 10 and return; a not-found failure returns; any other
failure enters the fallback path. -/
def delete_vm_delete_phase (w : World) (instance_name : String) : ARes × List Ev :=
  match w.delete instance_name with
  | .ok _ => (.done, [.deleteInstance instance_name, .sleep 10])
  | .error e =>
    if nfLower e then (.done, [.deleteInstance instance_name])
    else
      let r := delete_vm_force_path w instance_name
      (r.1, .deleteInstance instance_name :: r.2)

/-- Body of one retry attempt of delete_vm (lines 186-267): existence
check, stabilization, stop phase, delete section. -/
def delete_vm_attempt (w : World) (instance_name project_id : String) :
    ARes × List Ev :=
  match check_vm_exists instance_name project_id w with
  | (.error e, evs) => (.raised e, evs)
  | (.ok false, evs) => (.done, evs)
  | (.ok true, evs) =>
    match wait_for_vm_stable instance_name project_id w 60 with
    | (.error e, sevs) => (.raised e, evs ++ sevs)
    | (.ok _, sevs) =>
      let spEvs := delete_vm_stop_phase w instance_name
      let r := delete_vm_delete_phase w instance_name
      (r.1, evs ++ sevs ++ spEvs ++ r.2)

/-- Retry loop of delete_vm (lines 185 and 269-281) over the remaining
attempt numbers: a raised not-found returns success, otherwise sleep
attempt * 5 and retry while attempt < max_retries, else propagate. -/
def delete_vm_go (w : World) (instance_name project_id : String)
    (max_retries : Nat) : List Nat → Except String Unit × List Ev
  | [] => (.ok (), [])
  | a :: rest =>
    match delete_vm_attempt w instance_name project_id with
    | (.done, evs) => (.ok (), evs)
    | (.raised e, evs) =>
      if nfOuter e then (.ok (), evs)
      else if a < max_retries then
        let r := delete_vm_go w instance_name project_id max_retries rest
        (r.1, evs ++ .sleep (a * 5) :: r.2)
      else (.error e, evs)

/-- Python range(1, max_retries + 1): the attempt numbers, empty when
max_retries is non-positive. -/
def attemptNums (max_retries : Int) : List Nat :=
  (List.range max_retries.toNat).map (fun i => i + 1)

/-- delete_vm (lines 183-281). -/
def delete_vm (instance_name project_id : String) (w : World)
    (max_retries : Int) : Except String Unit × List Ev :=
  delete_vm_go w instance_name project_id max_retries.toNat (attemptNums max_retries)

/-- First disk flagged as boot, returning its source path (lines 88-92). -/
def bootDiskSource : List Disk → Option String
  | [] => none
  | d :: rest => if d.boot then some d.source else bootDiskSource rest

/-- The image resource built at lines 102-111. -/
def mkPromotedImage (instance_name image_name boot_disk_source : String) : Image :=
  { name := image_name
  , description := "Promoted image from validated VM " ++ instance_name
  , source_disk := boot_disk_source
  , family := "rhel9-runtime"
  , labels := [("source_image", instance_name),
               ("validation_status", "passed"),
               ("created_by", "promote-cleanup-function")] }

/-- create_image_from_vm (lines 57-132): stop and wait, re-read the
instance, require a truthy boot disk source (Python falsiness also
rejects an empty source string), insert the image and wait, then sleep
30 and return the image name.  Any failure propagates unchanged. -/
def create_image_from_vm (instance_name image_name project_id : String)
    (w : World) : Except String String × List Ev :=
  match w.stop instance_name with
  | .error e => (.error e, [.stopInstance instance_name])
  | .ok _ =>
    match w.getInstance instance_name with
    | .error e => (.error e, [.stopInstance instance_name, .getInstance instance_name])
    | .ok inst =>
      match bootDiskSource inst.disks with
      | none =>
        (.error ("Could not find boot disk for instance " ++ instance_name),
         [.stopInstance instance_name, .getInstance instance_name])
      | some src =>
        if src = "" then
          (.error ("Could not find boot disk for instance " ++ instance_name),
           [.stopInstance instance_name, .getInstance instance_name])
        else
          let img := mkPromotedImage instance_name image_name src
          match w.insertImage img with
          | .error e =>
            (.error e, [.stopInstance instance_name, .getInstance instance_name,
                        .insertImage img])
          | .ok _ =>
            (.ok image_name, [.stopInstance instance_name, .getInstance instance_name,
                              .insertImage img, .sleep 30])

/-- Module constant PROJECT_ID (line 18), with the environment lookup
modelled as its default value. -/
def PROJECT_ID : String := "sandbox-dev-478813"

/-- The triggering event: already-decoded payload and attribute map. -/
structure Event where
  data : Option String
  attributes : List (String × String)
deriving DecidableEq, Repr

/-- Python attributes.get(key, dflt). -/
def attrGet (attrs : List (String × String)) (key dflt : String) : String :=
  match attrs.find? (fun p => p.1 == key) with
  | some p => p.2
  | none => dflt

/-- A Python datetime value down to microseconds. -/
structure PyDateTime where
  year : Nat
  month : Nat
  day : Nat
  hour : Nat
  minute : Nat
  second : Nat
  microsecond : Nat
deriving DecidableEq, Repr

/-- Zero-padded decimal rendering. -/
def padNum (width n : Nat) : String :=
  let s := toString n
  String.mk (List.replicate (width - s.length) '0') ++ s

/-- strftime with format %Y%m%d-%H%M%S (line 324): second resolution,
the microsecond field is dropped. -/
def strftimeYmdHMS (t : PyDateTime) : String :=
  padNum 4 t.year ++ padNum 2 t.month ++ padNum 2 t.day ++ "-" ++
    padNum 2 t.hour ++ padNum 2 t.minute ++ padNum 2 t.second

/-- datetime.isoformat (line 365): microseconds omitted when zero. -/
def pyIsoformat (t : PyDateTime) : String :=
  padNum 4 t.year ++ "-" ++ padNum 2 t.month ++ "-" ++ padNum 2 t.day ++ "T" ++
    padNum 2 t.hour ++ ":" ++ padNum 2 t.minute ++ ":" ++ padNum 2 t.second ++
    (if t.microsecond = 0 then "" else "." ++ padNum 6 t.microsecond)

/-- The promoted image name built at line 325. -/
def promotedImageName (image_id : String) (t : PyDateTime) : String :=
  image_id ++ "-promoted-" ++ strftimeYmdHMS t

/-- Attribute extraction at lines 298-302. -/
def reqImageId (ev : Event) : String := attrGet ev.attributes "image_id" ""

/-- scan_result attribute with default empty string (line 299). -/
def reqScanResult (ev : Event) : String := attrGet ev.attributes "scan_result" ""

/-- validation_instance attribute with default empty string (line 300). -/
def reqValidationInstance (ev : Event) : String :=
  attrGet ev.attributes "validation_instance" ""

/-- skip_destroy attribute parsed case-insensitively (line 301). -/
def reqSkipDestroy (ev : Event) : Bool :=
  strLower (attrGet ev.attributes "skip_destroy" "false") == "true"

/-- skip_promotion attribute parsed case-insensitively (line 302). -/
def reqSkipPromotion (ev : Event) : Bool :=
  strLower (attrGet ev.attributes "skip_promotion" "false") == "true"

/-- The dict returned at lines 361-366. -/
structure ResultRec where
  status : String
  promoted_image : Option String
  validation_instance : String
  timestamp : String
deriving DecidableEq, Repr

/-- Python truthiness of an optional string: None and the empty string
are falsy (the `if promoted_image:` test at line 350). -/
def pyTruthyOptStr : Option String → Bool
  | none => false
  | some s => !(s == "")

/-- promote_cleanup (lines 284-370).  now feeds the image-name
timestamp at line 324, now2 the result timestamp at line 365.  Early
gating returns (lines 312-318) yield Python None, modelled as .ok none;
the full success record is .ok (some r). -/
def promote_cleanup (event : Event) (w : World) (now now2 : PyDateTime) :
    Except String (Option ResultRec) × List Ev :=
  let validation_instance := reqValidationInstance event
  if validation_instance = "" then (.ok none, [])
  else if reqScanResult event ≠ "Pass" then (.ok none, [])
  else
    let promoStep : Except String (Option String) × List Ev :=
      if reqSkipPromotion event then (.ok none, [])
      else
        let r := create_image_from_vm validation_instance
          (promotedImageName (reqImageId event) now) PROJECT_ID w
        (r.1.map some, r.2)
    match promoStep with
    | (.error e, evs) => (.error e, evs)
    | (.ok promoted, evs) =>
      if reqSkipDestroy event then
        (.ok (some { status := "success", promoted_image := promoted,
                     validation_instance := validation_instance,
                     timestamp := pyIsoformat now2 }), evs)
      else
        let pre : List Ev := if pyTruthyOptStr promoted then [.sleep 5] else []
        let r := delete_vm validation_instance PROJECT_ID w 3
        match r.1 with
        | .error e => (.error e, evs ++ pre ++ r.2)
        | .ok _ =>
          (.ok (some { status := "success", promoted_image := promoted,
                       validation_instance := validation_instance,
                       timestamp := pyIsoformat now2 }), evs ++ pre ++ r.2)

/-- Status field of a long-running operation. -/
inductive OpStatus
  | pending
  | running
  | done
deriving DecidableEq, Repr

/-- A long-running operation as observed by one poll: status and the
optional error payload (a truthy proto field in the source). -/
structure Operation where
  status : OpStatus
  error : Option String
deriving DecidableEq, Repr

/-- Waiter trace events: one poll of the operation, or a sleep. -/
inductive WaitEv
  | poll
  | sleep (secs : Nat)
deriving DecidableEq, Repr

/-- Outcome of a bounded run of the waiter loop: the source returns,
raises on an error payload, or is still polling when the fuel bound is
reached (the source would loop on). -/
inductive WaitOutcome
  | success
  | opError (e : String)
  | stillPolling
deriving DecidableEq, Repr

/-- The polling loop shared by both waiters (lines 30-40 and 45-54):
poll; when DONE raise on a present error payload else return; otherwise
sleep 2 seconds and poll again.  p i is the result of the i-th poll. -/
def waitOpLoop (p : Nat → Operation) : Nat → WaitOutcome × List WaitEv
  | 0 => (.stillPolling, [])
  | fuel + 1 =>
    if (p 0).status = .done then
      match (p 0).error with
      | some e => (.opError e, [.poll])
      | none => (.success, [.poll])
    else
      let r := waitOpLoop (fun i => p (i + 1)) fuel
      (r.1, .poll :: .sleep 2 :: r.2)

/-- Poll streams for zonal and global operations, keyed by operation
name and poll index. -/
structure OpWorld where
  zoneOp : String → Nat → Operation
  globalOp : String → Nat → Operation

/-- wait_for_zone_operation (lines 28-40), bounded by fuel polls. -/
def wait_for_zone_operation (w : OpWorld) (operation_name project_id zone : String)
    (fuel : Nat) : WaitOutcome × List WaitEv :=
  waitOpLoop (w.zoneOp operation_name) fuel

/-- wait_for_global_operation (lines 43-54), bounded by fuel polls. -/
def wait_for_global_operation (w : OpWorld) (operation_name project_id : String)
    (fuel : Nat) : WaitOutcome × List WaitEv :=
  waitOpLoop (w.globalOp operation_name) fuel

/-- The i-th poll is the first one reporting DONE. -/
def isFirstDone (p : Nat → Operation) (i : Nat) : Prop :=
  (p i).status = .done ∧ ∀ j, j < i → (p j).status ≠ .done

/-- Trace of n completed poll-and-sleep rounds on the fixed 2-second
interval. -/
def pollTrace : Nat → List WaitEv
  | 0 => []
  | n + 1 => .poll :: .sleep 2 :: pollTrace n

/-! Concrete fixtures used by witnesses and counterexamples. -/

/-- A collaborator whose instance reads fail with a generic error. -/
def Wtriv : World :=
  { getInstance := fun _ => .error "x"
  , stop := fun _ => .ok ()
  , delete := fun _ => .ok ()
  , insertImage := fun _ => .ok () }

/-- The happy-path instance: terminated, with one boot disk. -/
def inst1 : Instance :=
  { status := .terminated
  , disks := [{ boot := true, source := "projects/p/zones/us-central1-a/disks/d" }] }

/-- A collaborator for the happy path continued: every call succeeds. -/
def W1 : World :=
  { getInstance := fun _ => .ok inst1
  , stop := fun _ => .ok ()
  , delete := fun _ => .ok ()
  , insertImage := fun _ => .ok () }

/-- A collaborator that fails every call with a non-not-found error. -/
def W4 : World :=
  { getInstance := fun _ => .error "quota exceeded"
  , stop := fun _ => .error "quota exceeded"
  , delete := fun _ => .error "quota exceeded"
  , insertImage := fun _ => .error "quota exceeded" }

/-- A collaborator whose stop call raises a not-found error while the
delete call keeps failing with an unrelated error. -/
def W5 : World :=
  { getInstance := fun _ => .ok { status := .running, disks := [] }
  , stop := fun _ => .error "not found"
  , delete := fun _ => .error "backend error"
  , insertImage := fun _ => .ok () }

/-- A collaborator reporting the instance absent on every read. -/
def Wabsent : World :=
  { getInstance := fun _ => .error "instance was not found"
  , stop := fun _ => .ok ()
  , delete := fun _ => .ok ()
  , insertImage := fun _ => .ok () }

/-- A fully populated passing request. -/
def ev0 : Event :=
  { data := none
  , attributes := [("image_id", "rhel9"), ("scan_result", "Pass"),
      ("validation_instance", "vm-1")] }

/-- A request whose scan failed. -/
def evFail : Event :=
  { data := none
  , attributes := [("image_id", "rhel9"), ("scan_result", "Fail"),
      ("validation_instance", "vm-1")] }

/-- A request carrying no attributes at all. -/
def evEmpty : Event :=
  { data := none, attributes := [] }

/-- A fixed invocation time. -/
def t0 : PyDateTime :=
  { year := 2026, month := 10, day := 12, hour := 1, minute := 2, second := 3,
    microsecond := 0 }

/-! ## C2 -/

/-- C2: for every request whose scan_result attribute is any string
other than "Pass", promote_cleanup returns early (Python None) without
invoking create_image_from_vm or delete_vm and without issuing any
remote call: the trace is empty. -/
theorem promote_cleanup_scan_gate (ev : Event) (w : World) (now now2 : PyDateTime)
    (h : reqScanResult ev ≠ "Pass") :
    promote_cleanup ev w now now2 = (.ok none, []) := by
  by_cases h1 : reqValidationInstance ev = "" <;> simp [promote_cleanup, h1, h]

/-- Witness for C2 at a concrete failed-scan request. -/
theorem promote_cleanup_scan_gate_witness :
    promote_cleanup evFail Wtriv t0 t0 = (.ok none, []) :=
  promote_cleanup_scan_gate evFail Wtriv t0 t0 (by decide)

/-! ## C3 -/

/-- C3 counterexample: at a request with no validation_instance the
source returns Python None (modelled .ok none), not a record carrying
the documented result fields, so the claimed no-op result record does
not exist; the trace is empty and no error is raised. -/
theorem promote_cleanup_empty_instance_returns_none :
    promote_cleanup evEmpty Wtriv t0 t0 = (.ok none, []) := by decide

/-- C3 amended: for every request whose validation_instance attribute
is empty or absent, promote_cleanup performs no remote mutation and
returns early with Python None (no result record), not an error. -/
theorem promote_cleanup_empty_instance_noop (ev : Event) (w : World)
    (now now2 : PyDateTime) (h : reqValidationInstance ev = "") :
    promote_cleanup ev w now now2 = (.ok none, []) := by
  simp [promote_cleanup, h]

/-- Witness for the amended C3 at a concrete attribute-free request. -/
theorem promote_cleanup_empty_instance_noop_witness :
    promote_cleanup evEmpty W1 t0 t0 = (.ok none, []) :=
  promote_cleanup_empty_instance_noop evEmpty W1 t0 t0 (by decide)

/-! ## C9 -/

/-- C9: delete_vm with a non-positive max_retries returns success
immediately, issuing no remote call at all, because range(1,
max_retries + 1) is empty and the loop body never executes. -/
theorem delete_vm_nonpositive_retries_noop (instance_name project_id : String)
    (w : World) (m : Int) (h : m ≤ 0) :
    delete_vm instance_name project_id w m = (.ok (), []) := by
  have hz : m.toNat = 0 := Int.toNat_of_nonpos h
  simp [delete_vm, attemptNums, hz, delete_vm_go]

/-- Witness for C9 at max_retries 0 against a live instance. -/
theorem delete_vm_nonpositive_retries_noop_witness :
    delete_vm "vm-1" PROJECT_ID W1 0 = (.ok (), []) :=
  delete_vm_nonpositive_retries_noop "vm-1" PROJECT_ID W1 0 (by decide)

/-! ## C4 -/

/-- C4: when the collaborator fails every attempt with a non-not-found
error, delete_vm with max_retries 3 performs exactly three attempts
(three existence checks, one per attempt), sleeps attempt * 5 seconds
between them (5 then 10), and after the third attempt raises the last
underlying cause (the outcome the specification names DeletionError;
the source re-raises the last exception at line 281). -/
theorem delete_vm_retry_exhaustion (w : World) (instance_name project_id e : String)
    (hget : w.getInstance instance_name = .error e)
    (hnc : nfCheck e = false) (hno : nfOuter e = false) :
    delete_vm instance_name project_id w 3 =
      (.error e, [.getInstance instance_name, .sleep 5, .getInstance instance_name,
        .sleep 10, .getInstance instance_name]) := by
  have hA : delete_vm_attempt w instance_name project_id =
      (.raised e, [.getInstance instance_name]) := by
    simp [delete_vm_attempt, check_vm_exists, hget, hnc]
  have h3 : attemptNums 3 = [1, 2, 3] := by decide
  have ht : ((3 : Int)).toNat = 3 := rfl
  simp [delete_vm, h3, ht, delete_vm_go, hA, hno]

/-- Witness for C4 against the always-failing collaborator. -/
theorem delete_vm_retry_exhaustion_witness :
    delete_vm "vm-1" PROJECT_ID W4 3 =
      (.error "quota exceeded", [.getInstance "vm-1", .sleep 5, .getInstance "vm-1",
        .sleep 10, .getInstance "vm-1"]) :=
  delete_vm_retry_exhaustion W4 "vm-1" PROJECT_ID "quota exceeded" rfl (by decide)
    (by decide)

/-! ## C5 -/

/-- C5 counterexample: a not-found error arising at the stop call does
not short-circuit delete_vm to success.  Against W5 the stop call
raises "not found" (a not-found condition by the source test at line
215), yet the attempt proceeds to issue the delete call six times
across the three attempts and delete_vm ends by raising the delete
failure instead of returning success. -/
theorem delete_vm_stop_not_found_no_short_circuit :
    W5.stop "vm-1" = .error "not found" ∧ nfLower "not found" = true ∧
    (delete_vm "vm-1" PROJECT_ID W5 3).1 = .error "backend error" ∧
    (delete_vm "vm-1" PROJECT_ID W5 3).2.count (Ev.deleteInstance "vm-1") = 6 := by
  decide

/-- Helper: once an attempt body returns, the retry loop returns
success with that attempt trace, for any non-empty attempt list. -/
theorem delete_vm_go_of_done (w : World) (n p : String) (mr : Nat) (evs : List Ev)
    (h : delete_vm_attempt w n p = (.done, evs)) :
    ∀ l, l ≠ [] → delete_vm_go w n p mr l = (.ok (), evs) := by
  intro l hl
  cases l with
  | nil => exact absurd rfl hl
  | cons a rest => simp [delete_vm_go, h]

/-- Helper: an attempt raising a not-found error (by the per-attempt
handler test) makes the retry loop return success immediately. -/
theorem delete_vm_go_of_raised_nf (w : World) (n p : String) (mr : Nat)
    (evs : List Ev) (e : String)
    (h : delete_vm_attempt w n p = (.raised e, evs)) (hnf : nfOuter e = true) :
    ∀ l, l ≠ [] → delete_vm_go w n p mr l = (.ok (), evs) := by
  intro l hl
  cases l with
  | nil => exact absurd rfl hl
  | cons a rest => simp [delete_vm_go, h, hnf]

/-- Helper: with at least one attempt allowed, the attempt list is
non-empty. -/
theorem attemptNums_ne_nil (m : Int) (h : 1 ≤ m) : attemptNums m ≠ [] := by
  simp [attemptNums, List.range_eq_nil]
  omega

/-- C5 amended: a not-found outcome short-circuits delete_vm to
success at the sites that test for it — the existence check (returning
success after the single existence read, with zero mutating calls), an
error reaching the per-attempt handler, the delete call itself, and
the force-delete fallback (lines 260-264: a not-found failure of the
fallback delete returns success with no further call and no retry
consumed) — but a not-found during the stop phase or stabilization is
merely swallowed and the attempt still proceeds to issue the delete
call. -/
theorem delete_vm_not_found_short_circuit (w : World)
    (instance_name project_id : String) (m : Int) (e : String) (inst : Instance) :
    (w.getInstance instance_name = .error e → nfCheck e = true → 1 ≤ m →
      delete_vm instance_name project_id w m =
        (.ok (), [.getInstance instance_name])) ∧
    (w.getInstance instance_name = .error e → nfCheck e = false →
      nfOuter e = true → 1 ≤ m →
      delete_vm instance_name project_id w m =
        (.ok (), [.getInstance instance_name])) ∧
    (w.getInstance instance_name = .ok inst → inst.status = .terminated →
      w.delete instance_name = .error e → nfLower e = true → 1 ≤ m →
      delete_vm instance_name project_id w m =
        (.ok (), [.getInstance instance_name, .getInstance instance_name,
          .getInstance instance_name, .deleteInstance instance_name])) ∧
    (w.delete instance_name = .error e → nfLower e = true →
      delete_vm_force_path w instance_name =
        (.done, delete_vm_force_stop_events w instance_name ++
          [.deleteInstance instance_name])) := by
  refine ⟨?_, ?_, ?_, ?_⟩
  · intro hget hnf hm
    have hA : delete_vm_attempt w instance_name project_id =
        (.done, [.getInstance instance_name]) := by
      simp [delete_vm_attempt, check_vm_exists, hget, hnf]
    rw [delete_vm]
    exact delete_vm_go_of_done w instance_name project_id m.toNat _ hA
      (attemptNums m) (attemptNums_ne_nil m hm)
  · intro hget hnc hno hm
    have hA : delete_vm_attempt w instance_name project_id =
        (.raised e, [.getInstance instance_name]) := by
      simp [delete_vm_attempt, check_vm_exists, hget, hnc]
    rw [delete_vm]
    exact delete_vm_go_of_raised_nf w instance_name project_id m.toNat _ e hA hno
      (attemptNums m) (attemptNums_ne_nil m hm)
  · intro hget hst hdel hnf hm
    have hA : delete_vm_attempt w instance_name project_id =
        (.done, [.getInstance instance_name, .getInstance instance_name,
          .getInstance instance_name, .deleteInstance instance_name]) := by
      simp [delete_vm_attempt, check_vm_exists, hget, wait_for_vm_stable,
        wait_for_vm_stable_go, hst, delete_vm_stop_phase, delete_vm_delete_phase,
        hdel, hnf]
    rw [delete_vm]
    exact delete_vm_go_of_done w instance_name project_id m.toNat _ hA
      (attemptNums m) (attemptNums_ne_nil m hm)
  · intro hdel hnf
    simp [delete_vm_force_path, hdel, hnf]

/-- A collaborator whose delete call reports the instance absent. -/
def Wnf : World :=
  { getInstance := fun _ => .ok { status := .terminated, disks := [] }
  , stop := fun _ => .ok ()
  , delete := fun _ => .error "not found"
  , insertImage := fun _ => .ok () }

/-- Witness for the amended C5: deleting an already-absent instance
succeeds after nothing but the existence check, and a not-found
failure of the force-fallback delete returns success at once. -/
theorem delete_vm_not_found_short_circuit_witness :
    delete_vm "vm-1" PROJECT_ID Wabsent 3 = (.ok (), [.getInstance "vm-1"]) ∧
    delete_vm_force_path Wnf "vm-1" =
      (.done, [.getInstance "vm-1", .deleteInstance "vm-1"]) :=
  ⟨(delete_vm_not_found_short_circuit Wabsent "vm-1" PROJECT_ID 3
      "instance was not found" inst1).1 rfl (by decide) (by decide),
   (delete_vm_not_found_short_circuit Wnf "vm-1" PROJECT_ID 3
      "not found" inst1).2.2.2 rfl (by decide)⟩

/-! ## C8 -/

/-- Helper: when no disk is flagged as boot, the search finds nothing. -/
theorem bootDiskSource_eq_none (disks : List Disk) (h : ∀ d ∈ disks, d.boot = false) :
    bootDiskSource disks = none := by
  induction disks with
  | nil => rfl
  | cons d rest ih =>
    have hd : d.boot = false := h d (by simp)
    simp [bootDiskSource, hd]
    exact ih (fun d' hd' => h d' (by simp [hd']))

/-- C8: after the post-stop re-read, an instance with no disk flagged
as boot makes create_image_from_vm fail with the no-boot-disk message
and issue no image-creation call (the trace holds only the stop and the
read); when a boot disk is found with a truthy source, the inserted
image references that full source path and carries the fixed
source_image, validation_status=passed and created_by labels and the
fixed family. -/
theorem create_image_from_vm_boot_disk (w : World)
    (instance_name image_name project_id : String) (inst : Instance) (src : String) :
    (w.stop instance_name = .ok () → w.getInstance instance_name = .ok inst →
      (∀ d ∈ inst.disks, d.boot = false) →
      create_image_from_vm instance_name image_name project_id w =
        (.error ("Could not find boot disk for instance " ++ instance_name),
         [.stopInstance instance_name, .getInstance instance_name])) ∧
    (w.stop instance_name = .ok () → w.getInstance instance_name = .ok inst →
      bootDiskSource inst.disks = some src → src ≠ "" →
      Ev.insertImage
        { name := image_name
        , description := "Promoted image from validated VM " ++ instance_name
        , source_disk := src
        , family := "rhel9-runtime"
        , labels := [("source_image", instance_name), ("validation_status", "passed"),
                     ("created_by", "promote-cleanup-function")] } ∈
        (create_image_from_vm instance_name image_name project_id w).2) := by
  constructor
  · intro hstop hget hnb
    simp [create_image_from_vm, hstop, hget, bootDiskSource_eq_none inst.disks hnb]
  · intro hstop hget hbd hne
    rcases hins : w.insertImage (mkPromotedImage instance_name image_name src)
        with e | u <;>
      simp [mkPromotedImage] at hins <;>
      simp [create_image_from_vm, hstop, hget, hbd, hne, hins, mkPromotedImage]

/-- Witness for C8 on the happy-path collaborator. -/
theorem create_image_from_vm_boot_disk_witness :
    Ev.insertImage
      { name := "img-1"
      , description := "Promoted image from validated VM vm-1"
      , source_disk := "projects/p/zones/us-central1-a/disks/d"
      , family := "rhel9-runtime"
      , labels := [("source_image", "vm-1"), ("validation_status", "passed"),
                   ("created_by", "promote-cleanup-function")] } ∈
      (create_image_from_vm "vm-1" "img-1" PROJECT_ID W1).2 :=
  (create_image_from_vm_boot_disk W1 "vm-1" "img-1" PROJECT_ID inst1
    "projects/p/zones/us-central1-a/disks/d").2 rfl rfl (by decide) (by decide)

/-! ## C10 -/

/-- Helper: when the instance read keeps succeeding, stabilization
never raises. -/
theorem wait_for_vm_stable_go_ok (w : World) (n : String) (inst : Instance)
    (hget : w.getInstance n = .ok inst) :
    ∀ k, ∃ b evs, wait_for_vm_stable_go w n k = (.ok b, evs) := by
  intro k
  induction k with
  | zero => exact ⟨false, [], rfl⟩
  | succ k ih =>
    rcases ih with ⟨b, evs, hih⟩
    by_cases hst : inst.status = .terminated ∨ inst.status = .stopped ∨
        inst.status = .running
    · exact ⟨true, [.getInstance n], by simp [wait_for_vm_stable_go, hget, hst]⟩
    · exact ⟨b, .getInstance n :: .sleep 5 :: evs,
        by simp [wait_for_vm_stable_go, hget, hst, hih]⟩

/-- Helper: the delete section always issues the delete call, whatever
its outcome. -/
theorem delete_vm_delete_phase_mem (w : World) (n : String) :
    Ev.deleteInstance n ∈ (delete_vm_delete_phase w n).2 := by
  unfold delete_vm_delete_phase
  cases w.delete n <;> simp
  split <;> simp

/-- Helper: the delete call issued inside an attempt stays in the
attempt trace. -/
theorem delete_vm_attempt_delete_mem (w : World) (n p : String) (inst : Instance)
    (hget : w.getInstance n = .ok inst) :
    Ev.deleteInstance n ∈ (delete_vm_attempt w n p).2 := by
  obtain ⟨b, evs, hst⟩ := wait_for_vm_stable_go_ok w n inst hget 12
  have hmem := delete_vm_delete_phase_mem w n
  simp [delete_vm_attempt, check_vm_exists, hget, wait_for_vm_stable, hst]
  tauto

/-- Helper: the first attempt trace is a prefix of the whole trace, so
its delete call survives into the delete_vm trace. -/
theorem delete_vm_go_delete_mem (w : World) (n p : String) (mr : Nat)
    (h : Ev.deleteInstance n ∈ (delete_vm_attempt w n p).2) (a : Nat)
    (rest : List Nat) :
    Ev.deleteInstance n ∈ (delete_vm_go w n p mr (a :: rest)).2 := by
  rcases hA : delete_vm_attempt w n p with ⟨r, evs⟩
  rw [hA] at h
  cases r with
  | done => simp [delete_vm_go, hA, h]
  | raised e =>
    by_cases hnf : nfOuter e = true
    · simp [delete_vm_go, hA, hnf, h]
    · by_cases hlt : a < mr <;> simp [delete_vm_go, hA, hnf, hlt, h]

/-- C10: within a single delete_vm attempt every failure of the
pre-delete stop phase is swallowed.  The collaborator below is
constrained only in its instance read; its stop call may fail with any
error whatsoever (not only not-found), and the attempt still issues
the delete call. -/
theorem delete_vm_stop_phase_failure_still_deletes (w : World)
    (instance_name project_id : String) (inst : Instance) (m : Int)
    (hget : w.getInstance instance_name = .ok inst) (hm : 1 ≤ m) :
    Ev.deleteInstance instance_name ∈ (delete_vm instance_name project_id w m).2 := by
  have hmem := delete_vm_attempt_delete_mem w instance_name project_id inst hget
  rw [delete_vm]
  rcases hl : attemptNums m with _ | ⟨a, rest⟩
  · exact absurd hl (attemptNums_ne_nil m hm)
  · exact delete_vm_go_delete_mem w instance_name project_id m.toNat hmem a rest

/-- Witness for C10 against the collaborator whose stop call raises:
the delete call is still issued. -/
theorem delete_vm_stop_phase_failure_still_deletes_witness :
    Ev.deleteInstance "vm-1" ∈ (delete_vm "vm-1" PROJECT_ID W5 3).2 :=
  delete_vm_stop_phase_failure_still_deletes W5 "vm-1" PROJECT_ID
    { status := .running, disks := [] } 3 rfl (by decide)

/-! ## C6 -/

/-- C6 counterexample: two distinct invocation times within the same
second (differing only in microseconds, which strftime %Y%m%d-%H%M%S
drops) produce the same promoted image name for the same image_id, so
the naming does not guarantee uniqueness across repeated invocations. -/
theorem promotedImageName_same_second_collision :
    ({ year := 2026, month := 10, day := 12, hour := 1, minute := 2, second := 3,
       microsecond := 0 } : PyDateTime) ≠
      { year := 2026, month := 10, day := 12, hour := 1, minute := 2, second := 3,
        microsecond := 500000 } ∧
    promotedImageName "rhel9"
        { year := 2026, month := 10, day := 12, hour := 1, minute := 2, second := 3,
          microsecond := 0 } =
      promotedImageName "rhel9"
        { year := 2026, month := 10, day := 12, hour := 1, minute := 2, second := 3,
          microsecond := 500000 } := by
  decide

/-- Helper: a successful create_image_from_vm returns exactly the
requested image name. -/
theorem create_image_from_vm_ok_name (instance_name image_name project_id : String)
    (w : World) (s : String)
    (h : (create_image_from_vm instance_name image_name project_id w).1 = .ok s) :
    s = image_name := by
  unfold create_image_from_vm at h
  repeat' split at h
  all_goals try simp_all
  rename_i src heq hne
  rcases hz : w.insertImage (mkPromotedImage instance_name image_name src) with e | u <;>
    rw [hz] at h <;> simp_all

/-- C6 amended: every promotion names its image
promotedImageName image_id now, the pattern image_id ++ "-promoted-" ++
timestamp; two invocations for the same image_id produce distinct names
exactly when their second-resolution timestamp strings differ (and, per
the counterexample, collide within the same second). -/
theorem promotedImageName_uniqueness (ev : Event) (w : World)
    (now now2 : PyDateTime) (r : ResultRec) (id : String) (t t' : PyDateTime) :
    (reqSkipPromotion ev = false →
      (promote_cleanup ev w now now2).1 = .ok (some r) →
      r.promoted_image = some (promotedImageName (reqImageId ev) now)) ∧
    (promotedImageName id t = promotedImageName id t' ↔
      strftimeYmdHMS t = strftimeYmdHMS t') := by
  constructor
  · intro hskip h2
    by_cases hvi : reqValidationInstance ev = ""
    · simp [promote_cleanup, hvi] at h2
    · by_cases hsc : reqScanResult ev = "Pass"
      · rcases hc : (create_image_from_vm (reqValidationInstance ev)
            (promotedImageName (reqImageId ev) now) PROJECT_ID w).1 with e | s
        · simp [promote_cleanup, Except.map, hvi, hsc, hskip, hc] at h2
        · have hs : s = promotedImageName (reqImageId ev) now :=
            create_image_from_vm_ok_name _ _ _ _ _ hc
          by_cases hsd : reqSkipDestroy ev
          · simp [promote_cleanup, Except.map, hvi, hsc, hskip, hc, hsd] at h2
            simp [← h2, hs]
          · rcases hd : (delete_vm (reqValidationInstance ev) PROJECT_ID w 3).1
                with e | u
            · simp [promote_cleanup, Except.map, hvi, hsc, hskip, hc, hsd, hd] at h2
            · simp [promote_cleanup, Except.map, hvi, hsc, hskip, hc, hsd, hd] at h2
              simp [← h2, hs]
      · simp [promote_cleanup, hvi, hsc] at h2
  · constructor
    · intro h
      have hd := congrArg String.data h
      simp only [promotedImageName, String.data_append] at hd
      exact String.ext (List.append_cancel_left hd)
    · intro h
      rw [promotedImageName, promotedImageName, h]

/-- The success record of the happy-path invocation. -/
def rec0 : ResultRec :=
  { status := "success", promoted_image := some "rhel9-promoted-20261012-010203",
    validation_instance := "vm-1", timestamp := "2026-10-12T01:02:03" }

/-- Witness for the amended C6 on the happy path. -/
theorem promotedImageName_uniqueness_witness :
    rec0.promoted_image = some (promotedImageName (reqImageId ev0) t0) :=
  (promotedImageName_uniqueness ev0 W1 t0 t0 rec0 "rhel9" t0 t0).1 (by decide)
    (by decide)

/-! ## C1 -/

/-- Helper: the promoted image name is never the empty string, so the
Python truthiness test at line 350 accepts it. -/
theorem promotedImageName_ne_empty (id : String) (t : PyDateTime) :
    promotedImageName id t ≠ "" := by
  intro h
  have hd := congrArg (fun s => s.data.length) h
  simp [promotedImageName, String.data_append] at hd

/-- C1: for a request passing both gates with neither stage skipped,
promote_cleanup runs the promotion sequence first; when any promotion
step fails the whole invocation propagates that failure with the trace
ending at the promotion calls (no reaper call is ever issued), and when
promotion succeeds the whole trace is the promotion trace, then the
5-second settle sleep, then the reaper trace — every stop or delete
issued by delete_vm comes strictly after the fully completed promotion. -/
theorem promote_cleanup_reaper_after_promotion (ev : Event) (w : World)
    (now now2 : PyDateTime)
    (hvi : reqValidationInstance ev ≠ "") (hsc : reqScanResult ev = "Pass")
    (hsp : reqSkipPromotion ev = false) (hsd : reqSkipDestroy ev = false) :
    (∀ e, (create_image_from_vm (reqValidationInstance ev)
        (promotedImageName (reqImageId ev) now) PROJECT_ID w).1 = .error e →
      promote_cleanup ev w now now2 =
        (.error e, (create_image_from_vm (reqValidationInstance ev)
          (promotedImageName (reqImageId ev) now) PROJECT_ID w).2)) ∧
    (∀ s, (create_image_from_vm (reqValidationInstance ev)
        (promotedImageName (reqImageId ev) now) PROJECT_ID w).1 = .ok s →
      (promote_cleanup ev w now now2).2 =
        (create_image_from_vm (reqValidationInstance ev)
          (promotedImageName (reqImageId ev) now) PROJECT_ID w).2 ++
          Ev.sleep 5 :: (delete_vm (reqValidationInstance ev) PROJECT_ID w 3).2) := by
  constructor
  · intro e hc
    simp [promote_cleanup, Except.map, hvi, hsc, hsp, hc]
  · intro s hc
    have hs : s = promotedImageName (reqImageId ev) now :=
      create_image_from_vm_ok_name _ _ _ _ _ hc
    have htr : pyTruthyOptStr (some s) = true := by
      simp [pyTruthyOptStr, hs, promotedImageName_ne_empty]
    rcases hd : (delete_vm (reqValidationInstance ev) PROJECT_ID w 3).1 with e | u <;>
      simp [promote_cleanup, Except.map, hvi, hsc, hsp, hsd, hc, htr, hd]

/-- Witness for C1 on the happy path: the trace decomposes as promotion,
settle sleep, reaper. -/
theorem promote_cleanup_reaper_after_promotion_witness :
    (promote_cleanup ev0 W1 t0 t0).2 =
      (create_image_from_vm (reqValidationInstance ev0)
        (promotedImageName (reqImageId ev0) t0) PROJECT_ID W1).2 ++
        Ev.sleep 5 :: (delete_vm (reqValidationInstance ev0) PROJECT_ID W1 3).2 :=
  (promote_cleanup_reaper_after_promotion ev0 W1 t0 t0 (by decide) (by decide)
    (by decide) (by decide)).2 "rhel9-promoted-20261012-010203" (by decide)

/-! ## C7 -/

/-- Helper: shifting the poll stream by one shifts the first DONE
index, provided poll 0 is not DONE. -/
theorem isFirstDone_shift (p : Nat → Operation) (h0 : ¬(p 0).status = .done)
    (i : Nat) : isFirstDone (fun j => p (j + 1)) i ↔ isFirstDone p (i + 1) := by
  constructor
  · rintro ⟨hd, hmin⟩
    refine ⟨hd, ?_⟩
    intro j hj
    cases j with
    | zero => exact h0
    | succ k => exact hmin k (by omega)
  · rintro ⟨hd, hmin⟩
    exact ⟨hd, fun j hj => hmin (j + 1) (by omega)⟩

/-- Helper: the polling loop returns success exactly when the first
DONE poll within the fuel bound carries no error payload. -/
theorem waitOpLoop_success_iff : ∀ (fuel : Nat) (p : Nat → Operation),
    (waitOpLoop p fuel).1 = .success ↔
      ∃ i, i < fuel ∧ isFirstDone p i ∧ (p i).error = none := by
  intro fuel
  induction fuel with
  | zero =>
    intro p
    simp [waitOpLoop]
  | succ f ih =>
    intro p
    by_cases h0 : (p 0).status = .done
    · rcases herr : (p 0).error with _ | e
      · have hval : waitOpLoop p (f + 1) = (.success, [.poll]) := by
          simp [waitOpLoop, h0, herr]
        simp only [hval]
        constructor
        · intro _
          exact ⟨0, Nat.succ_pos f, ⟨h0, fun j hj => absurd hj (Nat.not_lt_zero j)⟩,
            herr⟩
        · intro _
          trivial
      · have hval : waitOpLoop p (f + 1) = (.opError e, [.poll]) := by
          simp [waitOpLoop, h0, herr]
        simp only [hval]
        constructor
        · intro hcon
          exact absurd hcon (by simp)
        · rintro ⟨i, hi, ⟨hd, hmin⟩, hnone⟩
          cases i with
          | zero =>
            rw [herr] at hnone
            exact absurd hnone (by simp)
          | succ k => exact absurd h0 (hmin 0 (Nat.succ_pos k))
    · have hstep : (waitOpLoop p (f + 1)).1 = (waitOpLoop (fun i => p (i + 1)) f).1 := by
        simp [waitOpLoop, h0]
      rw [hstep, ih]
      constructor
      · rintro ⟨i, hi, hfd, herr⟩
        exact ⟨i + 1, by omega, (isFirstDone_shift p h0 i).1 hfd, herr⟩
      · rintro ⟨i, hi, hfd, herr⟩
        cases i with
        | zero => exact absurd hfd.1 h0
        | succ k => exact ⟨k, by omega, (isFirstDone_shift p h0 k).2 hfd, herr⟩

/-- Helper: the polling loop raises exactly the error payload of the
first DONE poll within the fuel bound, when that payload is present. -/
theorem waitOpLoop_opError_iff : ∀ (fuel : Nat) (p : Nat → Operation) (e : String),
    (waitOpLoop p fuel).1 = .opError e ↔
      ∃ i, i < fuel ∧ isFirstDone p i ∧ (p i).error = some e := by
  intro fuel
  induction fuel with
  | zero =>
    intro p e
    simp [waitOpLoop]
  | succ f ih =>
    intro p e
    by_cases h0 : (p 0).status = .done
    · rcases herr : (p 0).error with _ | e'
      · have hval : waitOpLoop p (f + 1) = (.success, [.poll]) := by
          simp [waitOpLoop, h0, herr]
        simp only [hval]
        constructor
        · intro hcon
          exact absurd hcon (by simp)
        · rintro ⟨i, hi, ⟨hd, hmin⟩, hsome⟩
          cases i with
          | zero =>
            rw [herr] at hsome
            exact absurd hsome (by simp)
          | succ k => exact absurd h0 (hmin 0 (Nat.succ_pos k))
      · have hval : waitOpLoop p (f + 1) = (.opError e', [.poll]) := by
          simp [waitOpLoop, h0, herr]
        simp only [hval]
        constructor
        · intro heq
          have he : e' = e := by simpa using heq
          exact ⟨0, Nat.succ_pos f,
            ⟨h0, fun j hj => absurd hj (Nat.not_lt_zero j)⟩, he ▸ herr⟩
        · rintro ⟨i, hi, ⟨hd, hmin⟩, hsome⟩
          cases i with
          | zero =>
            rw [herr] at hsome
            simp only [Option.some.injEq] at hsome
            simp [hsome]
          | succ k => exact absurd h0 (hmin 0 (Nat.succ_pos k))
    · have hstep : (waitOpLoop p (f + 1)).1 = (waitOpLoop (fun i => p (i + 1)) f).1 := by
        simp [waitOpLoop, h0]
      rw [hstep, ih]
      constructor
      · rintro ⟨i, hi, hfd, herr⟩
        exact ⟨i + 1, by omega, (isFirstDone_shift p h0 i).1 hfd, herr⟩
      · rintro ⟨i, hi, hfd, herr⟩
        cases i with
        | zero => exact absurd hfd.1 h0
        | succ k => exact ⟨k, by omega, (isFirstDone_shift p h0 k).2 hfd, herr⟩

/-- Helper: while no poll within the bound reports DONE, the loop is
still polling on a 2-second interval after every poll and has produced
neither success nor an error. -/
theorem waitOpLoop_stillPolling : ∀ (fuel : Nat) (p : Nat → Operation),
    (∀ i, i < fuel → (p i).status ≠ .done) →
    waitOpLoop p fuel = (.stillPolling, pollTrace fuel) := by
  intro fuel
  induction fuel with
  | zero =>
    intro p _
    rfl
  | succ f ih =>
    intro p h
    have h0 : ¬(p 0).status = .done := h 0 (Nat.succ_pos f)
    have hr := ih (fun i => p (i + 1)) (fun i hi => h (i + 1) (by omega))
    simp [waitOpLoop, h0, hr, pollTrace]

/-- C7: for both waiters, the loop returns success exactly when the
polled operation first reaches DONE (within the fuel bound) with no
error payload, raises an OperationError carrying the payload exactly
when it first reaches DONE with one, and while no poll reports DONE it
keeps polling on the fixed 2-second interval without returning (the
trace is poll, sleep 2, poll, sleep 2, ...). -/
theorem wait_for_operation_done_spec (w : OpWorld)
    (operation_name project_id zone : String) (fuel : Nat) :
    ((wait_for_zone_operation w operation_name project_id zone fuel).1 = .success ↔
      ∃ i, i < fuel ∧ isFirstDone (w.zoneOp operation_name) i ∧
        (w.zoneOp operation_name i).error = none) ∧
    (∀ e, (wait_for_zone_operation w operation_name project_id zone fuel).1 =
        .opError e ↔
      ∃ i, i < fuel ∧ isFirstDone (w.zoneOp operation_name) i ∧
        (w.zoneOp operation_name i).error = some e) ∧
    ((∀ i, i < fuel → (w.zoneOp operation_name i).status ≠ .done) →
      wait_for_zone_operation w operation_name project_id zone fuel =
        (.stillPolling, pollTrace fuel)) ∧
    ((wait_for_global_operation w operation_name project_id fuel).1 = .success ↔
      ∃ i, i < fuel ∧ isFirstDone (w.globalOp operation_name) i ∧
        (w.globalOp operation_name i).error = none) ∧
    (∀ e, (wait_for_global_operation w operation_name project_id fuel).1 =
        .opError e ↔
      ∃ i, i < fuel ∧ isFirstDone (w.globalOp operation_name) i ∧
        (w.globalOp operation_name i).error = some e) ∧
    ((∀ i, i < fuel → (w.globalOp operation_name i).status ≠ .done) →
      wait_for_global_operation w operation_name project_id fuel =
        (.stillPolling, pollTrace fuel)) :=
  ⟨waitOpLoop_success_iff fuel _,
   fun e => waitOpLoop_opError_iff fuel _ e,
   fun h => waitOpLoop_stillPolling fuel _ h,
   waitOpLoop_success_iff fuel _,
   fun e => waitOpLoop_opError_iff fuel _ e,
   fun h => waitOpLoop_stillPolling fuel _ h⟩

/-- A pair of poll streams: the zonal operation completes cleanly on
its second poll, the global one completes at once with an error
payload. -/
def OpW0 : OpWorld :=
  { zoneOp := fun _ i =>
      if i = 0 then { status := .running, error := none }
      else { status := .done, error := none }
  , globalOp := fun _ _ => { status := .done, error := some "backend error" } }

/-- Witness for C7: the zonal waiter succeeds once its operation
reaches DONE cleanly, the global waiter surfaces the error payload. -/
theorem wait_for_operation_done_spec_witness :
    (wait_for_zone_operation OpW0 "op-1" "p" "us-central1-a" 3).1 = .success ∧
    (wait_for_global_operation OpW0 "op-1" "p" 3).1 = .opError "backend error" :=
  ⟨(wait_for_operation_done_spec OpW0 "op-1" "p" "us-central1-a" 3).1.mpr
      ⟨1, by decide, ⟨by decide, by decide⟩, by decide⟩,
   ((wait_for_operation_done_spec OpW0 "op-1" "p" "us-central1-a" 3).2.2.2.2.1
      "backend error").mpr ⟨0, by decide, ⟨by decide, by decide⟩, by decide⟩⟩
